import Mathlib

/-!
Verification development for the slack-visitor-bot repository (src/app.py).

The Python source is shallowly embedded:
* `parse_flexible_time` models the function of the same name (line 142): the
  normalisation chain of `str.strip`/`str.lower`/`str.replace` followed by a
  sequence of `datetime.strptime` attempts.  The strptime format machinery
  (CPython `_strptime`) compiles each format directive into an alternation of
  digit patterns, joined with literals, `\s+` for whitespace runs and `AM|PM`
  for `%p`, matched with leftmost preference and backtracking, then requires
  that no unconverted data remains and that the captured fields make a valid
  `datetime`.  That machinery is embedded by `matchToksF` below.
* `validate_submission` (line 154), `get_user_profile` (line 178),
  `handle_submission` (line 190), `create_event`'s attendee construction
  (lines 266-269) and the dispatch logic of `slack_events` (lines 50-60) are
  embedded over a small model `PyVal` of Python values, with exceptions as
  `Except PyErr`.  External calls (Slack API, Google calendar) are modelled by
  a `World` of call outcomes, and the side effects actually attempted are
  collected as a trace of `Effect`s.
Characters are treated as ASCII (all string literals in the program and in the
claims are ASCII); Python's unicode-aware `lower`/`strip`/`\s`/`\d` coincide
with the ASCII behaviour on every input considered here.
-/

/-- ASCII model of Python whitespace (`str.strip` default set and regex `\s`). -/
def pyIsSpace (c : Char) : Bool :=
  (c == ' ') || (c == '\t') || (c == '\n') || (c == '\r') || (c == '\x0b') || (c == '\x0c')

/-- ASCII model of `str.lower` on a single character. -/
def lowerChar (c : Char) : Char :=
  if 'A' ≤ c ∧ c ≤ 'Z' then Char.ofNat (c.toNat + 32) else c

/-- `str.lower`. -/
def pyLower (l : List Char) : List Char := l.map lowerChar

/-- `str.strip()` with no argument: remove leading and trailing whitespace. -/
def pyStrip (l : List Char) : List Char :=
  ((l.dropWhile pyIsSpace).reverse.dropWhile pyIsSpace).reverse

/-- `str.replace` for a one-character pattern: non-overlapping, left to right,
scanning resumes after the inserted replacement. -/
def pyReplace1 (p : Char) (rep : List Char) : List Char → List Char
  | [] => []
  | c :: cs => if c = p then rep ++ pyReplace1 p rep cs else c :: pyReplace1 p rep cs

/-- `str.replace` for a two-character pattern: non-overlapping, left to right,
scanning resumes after the inserted replacement. -/
def pyReplace2 (p1 p2 : Char) (rep : List Char) : List Char → List Char
  | [] => []
  | [c] => [c]
  | c1 :: c2 :: cs =>
      if c1 = p1 ∧ c2 = p2 then rep ++ pyReplace2 p1 p2 rep cs
      else c1 :: pyReplace2 p1 p2 rep (c2 :: cs)

/-- Line 143 of app.py:
`time_str.strip().lower().replace(".", ":").replace("  ", " ").replace("pm", " pm").replace("am", " am")`. -/
def normalize_time (s : String) : List Char :=
  pyReplace2 'a' 'm' [' ', 'a', 'm']
    (pyReplace2 'p' 'm' [' ', 'p', 'm']
      (pyReplace2 ' ' ' ' [' ']
        (pyReplace1 '.' [':']
          (pyLower (pyStrip s.data)))))

/-- One digit position of a strptime directive: a digit character whose value
must lie in `[lo, hi]` (e.g. `[0-5]` is `⟨0, 5⟩`, `\d` is `⟨0, 9⟩`). -/
structure DPat where
  lo : Nat
  hi : Nat
deriving DecidableEq

/-- Value of an ASCII digit character, `none` for a non-digit (regex `\d`). -/
def digitVal (c : Char) : Option Nat :=
  if '0' ≤ c ∧ c ≤ '9' then some (c.toNat - 48) else Option.none

/-- Match a fixed-length digit alternative (one branch of a directive's
alternation, e.g. `[0-1]\d`) against a prefix of the input, returning the
decimal value and the remaining input. -/
def matchDigitsAux (acc : Nat) : List DPat → List Char → Option (Nat × List Char)
  | [], s => some (acc, s)
  | _ :: _, [] => Option.none
  | p :: ps, c :: cs =>
      match digitVal c with
      | some v =>
          if p.lo ≤ v ∧ v ≤ p.hi then matchDigitsAux (acc * 10 + v) ps cs else Option.none
      | Option.none => Option.none

/-- The named capture groups of CPython `_strptime` that our formats use. -/
inductive NumField
  | year | month | day | hour24 | hour12 | minute
deriving DecidableEq

/-- One token of a compiled strptime format: a literal character (matched
case-insensitively, as `_strptime` compiles with `IGNORECASE`), a whitespace
run `\s+`, a numeric directive (ordered alternation of digit patterns), or
`%p` (`AM|PM`, case-insensitive). -/
inductive Tok
  | lit (c : Char)
  | ws
  | num (f : NumField) (alts : List (List DPat))
  | ampm
deriving DecidableEq

/-- Captured fields of a strptime match (all initially absent). -/
structure Caps where
  y : Option Nat := Option.none
  mo : Option Nat := Option.none
  dy : Option Nat := Option.none
  h24 : Option Nat := Option.none
  h12 : Option Nat := Option.none
  mi : Option Nat := Option.none
  pm : Option Bool := Option.none
deriving DecidableEq

/-- Store a numeric capture. -/
def Caps.setNum (c : Caps) (f : NumField) (v : Nat) : Caps :=
  match f with
  | NumField.year => { c with y := some v }
  | NumField.month => { c with mo := some v }
  | NumField.day => { c with dy := some v }
  | NumField.hour24 => { c with h24 := some v }
  | NumField.hour12 => { c with h12 := some v }
  | NumField.minute => { c with mi := some v }

/-- Case-insensitive character comparison (the whole strptime regex is
compiled with `re.IGNORECASE`). -/
def eqIC (a b : Char) : Bool := lowerChar a == lowerChar b

/-- Regex matching of a compiled format against a prefix of the input, with
the leftmost-preference backtracking semantics of `re.match`:
* a numeric directive tries its alternatives in order, and an alternative is
  kept only if the rest of the format can also match (ordered alternation
  with backtracking);
* `\s+` takes the maximal whitespace run (greedy; no token of our formats can
  match a whitespace character, so the greedy match never needs to backtrack);
* on success, the remaining (unconverted) input is returned.
The fuel argument only serves to make the recursion structural; every step
consumes one token and one unit of fuel, so fuel `= toks.length` (as passed
by `strptimeRun`) is never exhausted. -/
def matchToksF : Nat → List Tok → List Char → Caps → Option (Caps × List Char)
  | _, [], s, caps => some (caps, s)
  | 0, _ :: _, _, _ => Option.none
  | fuel + 1, Tok.lit c :: ts, s, caps =>
      match s with
      | [] => Option.none
      | c2 :: s2 => if eqIC c c2 then matchToksF fuel ts s2 caps else Option.none
  | fuel + 1, Tok.ws :: ts, s, caps =>
      let n := (s.takeWhile pyIsSpace).length
      if n = 0 then Option.none else matchToksF fuel ts (s.drop n) caps
  | fuel + 1, Tok.num f alts :: ts, s, caps =>
      alts.findSome? (fun a =>
        match matchDigitsAux 0 a s with
        | some (v, s2) => matchToksF fuel ts s2 (Caps.setNum caps f v)
        | Option.none => Option.none)
  | fuel + 1, Tok.ampm :: ts, s, caps =>
      match s with
      | a :: b :: s2 =>
          if eqIC 'a' a && eqIC 'm' b then matchToksF fuel ts s2 { caps with pm := some false }
          else if eqIC 'p' a && eqIC 'm' b then matchToksF fuel ts s2 { caps with pm := some true }
          else Option.none
      | _ => Option.none

/-- `\d` as a digit pattern. -/
def d09 : DPat := ⟨0, 9⟩

/-- `%Y`: `\d\d\d\d`. -/
def yearAlts : List (List DPat) := [[d09, d09, d09, d09]]

/-- `%m`: `1[0-2]|0[1-9]|[1-9]`. -/
def monthAlts : List (List DPat) := [[⟨1, 1⟩, ⟨0, 2⟩], [⟨0, 0⟩, ⟨1, 9⟩], [⟨1, 9⟩]]

/-- `%d`: `3[0-1]|[1-2]\d|0[1-9]|[1-9]`. -/
def dayAlts : List (List DPat) := [[⟨3, 3⟩, ⟨0, 1⟩], [⟨1, 2⟩, d09], [⟨0, 0⟩, ⟨1, 9⟩], [⟨1, 9⟩]]

/-- `%H`: `2[0-3]|[0-1]\d|\d`. -/
def h24Alts : List (List DPat) := [[⟨2, 2⟩, ⟨0, 3⟩], [⟨0, 1⟩, d09], [d09]]

/-- `%I`: `1[0-2]|0[1-9]|[1-9]`. -/
def h12Alts : List (List DPat) := [[⟨1, 1⟩, ⟨0, 2⟩], [⟨0, 0⟩, ⟨1, 9⟩], [⟨1, 9⟩]]

/-- `%M`: `[0-5]\d|\d`. -/
def minAlts : List (List DPat) := [[⟨0, 5⟩, d09], [d09]]

/-- The compiled `"%Y-%m-%d "` shared by every attempted format (the space
between `%d` and the time format becomes `\s+`). -/
def dateToks : List Tok :=
  [Tok.num NumField.year yearAlts, Tok.lit '-', Tok.num NumField.month monthAlts,
   Tok.lit '-', Tok.num NumField.day dayAlts, Tok.ws]

/-- `"%I:%M %p"`. -/
def fmt1Toks : List Tok :=
  [Tok.num NumField.hour12 h12Alts, Tok.lit ':', Tok.num NumField.minute minAlts, Tok.ws, Tok.ampm]

/-- `"%I %p"`. -/
def fmt2Toks : List Tok := [Tok.num NumField.hour12 h12Alts, Tok.ws, Tok.ampm]

/-- `"%H:%M"`. -/
def fmt3Toks : List Tok :=
  [Tok.num NumField.hour24 h24Alts, Tok.lit ':', Tok.num NumField.minute minAlts]

/-- `"%I:%M%p"`. -/
def fmt4Toks : List Tok :=
  [Tok.num NumField.hour12 h12Alts, Tok.lit ':', Tok.num NumField.minute minAlts, Tok.ampm]

/-- `"%I.%M %p"`. -/
def fmt5Toks : List Tok :=
  [Tok.num NumField.hour12 h12Alts, Tok.lit '.', Tok.num NumField.minute minAlts, Tok.ws, Tok.ampm]

/-- `"%I.%M%p"`. -/
def fmt6Toks : List Tok :=
  [Tok.num NumField.hour12 h12Alts, Tok.lit '.', Tok.num NumField.minute minAlts, Tok.ampm]

/-- `"%H.%M"`. -/
def fmt7Toks : List Tok :=
  [Tok.num NumField.hour24 h24Alts, Tok.lit '.', Tok.num NumField.minute minAlts]

/-- The format list of line 144-146 of app.py, in attempt order. -/
def fmtToksList : List (List Tok) :=
  [fmt1Toks, fmt2Toks, fmt3Toks, fmt4Toks, fmt5Toks, fmt6Toks, fmt7Toks]

/-- Proleptic-Gregorian leap year, as Python's `datetime`. -/
def isLeap (y : Nat) : Bool := y % 4 = 0 ∧ (y % 100 ≠ 0 ∨ y % 400 = 0)

/-- Days in a month, as Python's `datetime`. -/
def daysInMonth (y m : Nat) : Nat :=
  if m = 2 then (if isLeap y then 29 else 28)
  else if m = 4 ∨ m = 6 ∨ m = 9 ∨ m = 11 then 30 else 31

/-- The result of a successful `datetime.strptime` (seconds and below are
always zero for our formats). -/
structure DateTime where
  year : Nat
  month : Nat
  day : Nat
  hour : Nat
  minute : Nat
deriving DecidableEq

/-- Turn strptime captures into a `datetime`, as `_strptime` does:
`%H` wins for the hour; otherwise `%I` is combined with `%p`
(12 AM ↦ 0, 12 PM ↦ 12, otherwise PM adds 12); a missing `%M` defaults to 0;
constructing the `datetime` checks the ranges of every field (an invalid
day-of-month raises `ValueError`, which the format loop treats as a failed
attempt). -/
def capsToDateTime (c : Caps) : Option DateTime :=
  match c.y, c.mo, c.dy with
  | some y, some m, some d =>
      let hour : Nat :=
        match c.h24 with
        | some h => h
        | Option.none =>
            match c.h12, c.pm with
            | some i, some true => if i = 12 then 12 else i + 12
            | some i, some false => if i = 12 then 0 else i
            | some i, Option.none => i
            | Option.none, _ => 0
      let minute : Nat := c.mi.getD 0
      if 1 ≤ y ∧ y ≤ 9999 ∧ 1 ≤ m ∧ m ≤ 12 ∧ 1 ≤ d ∧ d ≤ daysInMonth y m ∧
          hour ≤ 23 ∧ minute ≤ 59 then
        some ⟨y, m, d, hour, minute⟩
      else Option.none
  | _, _, _ => Option.none

/-- One `datetime.strptime(data, fmt)` attempt: match the compiled format with
leftmost preference, fail if unconverted data remains, then build the
`datetime`. -/
def strptimeRun (toks : List Tok) (s : List Char) : Option DateTime :=
  match matchToksF toks.length toks s {} with
  | some (caps, rest) => if rest = [] then capsToDateTime caps else Option.none
  | Option.none => Option.none

/-- `parse_flexible_time` (app.py line 142): normalize the time text, then try
each format against `f"{date_str} {time_str}"` in order; `none` models the
`ValueError` raised when no format matches. -/
def parse_flexible_time (date_str time_str : String) : Option DateTime :=
  let t := normalize_time time_str
  let combined := date_str.data ++ ' ' :: t
  fmtToksList.findSome? (fun fts => strptimeRun (dateToks ++ fts) combined)

/-- Python `datetime >= datetime` on our fields (lexicographic). -/
def dtGe (a b : DateTime) : Bool :=
  if a.year ≠ b.year then decide (b.year < a.year)
  else if a.month ≠ b.month then decide (b.month < a.month)
  else if a.day ≠ b.day then decide (b.day < a.day)
  else if a.hour ≠ b.hour then decide (b.hour < a.hour)
  else decide (b.minute ≤ a.minute)

/-- A model of the Python values reaching the validator: `None`, strings, and
(string-keyed) dicts. -/
inductive PyVal
  | none
  | str (s : String)
  | dict (entries : List (String × PyVal))

/-- The Python exceptions the embedded code can raise. -/
inductive PyErr
  | keyError (k : String)
  | typeError
  | attributeError
  | indexError
  | valueError
deriving DecidableEq

/-- First-match lookup in a dict's entry list. -/
def lookupEntries : List (String × PyVal) → String → Option PyVal
  | [], _ => Option.none
  | (k2, v) :: rest, k => if k2 = k then some v else lookupEntries rest k

/-- Python subscription `v[k]`: `KeyError` for a missing key, `TypeError` when
`v` is not a dict. -/
def pyGet (v : PyVal) (k : String) : Except PyErr PyVal :=
  match v with
  | PyVal.dict es =>
      match lookupEntries es k with
      | some x => Except.ok x
      | Option.none => Except.error (PyErr.keyError k)
  | _ => Except.error PyErr.typeError

/-- `v[k1][k2][k3]`. -/
def pyGet3 (v : PyVal) (k1 k2 k3 : String) : Except PyErr PyVal :=
  match pyGet v k1 with
  | Except.error e => Except.error e
  | Except.ok x =>
      match pyGet x k2 with
      | Except.error e => Except.error e
      | Except.ok x2 => pyGet x2 k3

/-- Python truthiness of the modelled values. -/
def truthy : PyVal → Bool
  | PyVal.none => false
  | PyVal.str s => !s.isEmpty
  | PyVal.dict es => !es.isEmpty

/-- `str(v)` as used by the f-string `f"{date_str} {time_str}"`.  A dict's
exact rendering is irrelevant: it begins with a brace, so it can never match
the leading `\d\d\d\d` of a date and every parse of it fails. -/
def pyStr : PyVal → String
  | PyVal.none => "None"
  | PyVal.str s => s
  | PyVal.dict _ => "\x7b...\x7d"

/-- The `.strip()` attribute access: `AttributeError` on a non-string. -/
def asStr : PyVal → Except PyErr String
  | PyVal.str s => Except.ok s
  | _ => Except.error PyErr.attributeError

/-- Substring test, for Python `in` applied to strings. -/
def dropPat : List Char → List Char → Option (List Char)
  | [], s => some s
  | _ :: _, [] => Option.none
  | p :: ps, c :: cs => if p = c then dropPat ps cs else Option.none

/-- `pat in s` for strings. -/
def hasSub (pat : List Char) : List Char → Bool
  | [] => pat.isEmpty
  | c :: cs => (dropPat pat (c :: cs)).isSome || hasSub pat cs

/-- Python `k in v`: key membership for dicts, substring test for strings,
`TypeError` for `None`. -/
def pyContains (v : PyVal) (k : String) : Except PyErr Bool :=
  match v with
  | PyVal.dict es => Except.ok (lookupEntries es k).isSome
  | PyVal.str s => Except.ok (hasSub k.data s.data)
  | PyVal.none => Except.error PyErr.typeError

/-- Python dict assignment `d[k] = v` on an insertion-ordered entry list. -/
def dictSet (es : List (String × String)) (k v : String) : List (String × String) :=
  match es with
  | [] => [(k, v)]
  | (k2, v2) :: rest => if k2 = k then (k2, v) :: rest else (k2, v2) :: dictSet rest k v

/-- Lookup in the errors dict. -/
def lookupErr : List (String × String) → String → Option String
  | [], _ => Option.none
  | (k2, v) :: rest, k => if k2 = k then some v else lookupErr rest k

/-- The body of the `try:` block of `validate_submission` (app.py lines
156-165): extract the date and the two raw time values, parse both times
(`parse_flexible_time` raising `ValueError` on failure, `.strip()` raising on
a non-string), and compare the instants.  Any raised exception is the
`.error` case, caught by the `except` of `validate_submission`. -/
def validateTimesPart (values : PyVal) : Except PyErr (List (String × String)) :=
  match pyGet3 values "date" "value" "selected_date" with
  | Except.error e => Except.error e
  | Except.ok d =>
  match pyGet3 values "start_time" "value" "value" with
  | Except.error e => Except.error e
  | Except.ok sv =>
  match pyGet3 values "end_time" "value" "value" with
  | Except.error e => Except.error e
  | Except.ok ev =>
  match asStr sv with
  | Except.error e => Except.error e
  | Except.ok ss =>
  match parse_flexible_time (pyStr d) ss with
  | Option.none => Except.error PyErr.valueError
  | some start_dt =>
  match asStr ev with
  | Except.error e => Except.error e
  | Except.ok es =>
  match parse_flexible_time (pyStr d) es with
  | Option.none => Except.error PyErr.valueError
  | some end_dt =>
  Except.ok (if dtGe start_dt end_dt then [("end_time", "End time must be after start time.")] else [])

/-- The errors dict after the `try`/`except` of `validate_submission`
(lines 156-170): on any exception, both time fields get their generic
messages (lines 169-170). -/
def timeErrorsOf (values : PyVal) : List (String × String) :=
  match validateTimesPart values with
  | Except.ok errs => errs
  | Except.error _ =>
      [("start_time", "Enter time like 2:30 PM or 14:30"),
       ("end_time", "Enter time like 3:30 PM or 15:30")]

/-- Line 172: `values["guest_email"]["value"]["value"] if "guest_email" in values else ""`. -/
def guestEmailValue (values : PyVal) : Except PyErr PyVal :=
  match pyContains values "guest_email" with
  | Except.error e => Except.error e
  | Except.ok true => pyGet3 values "guest_email" "value" "value"
  | Except.ok false => Except.ok (PyVal.str "")

/-- `[^@\s]`. -/
def noAtNoWs (c : Char) : Bool := !(c == '@') && !(pyIsSpace c)

/-- Full match of `[^@\s]+@[^@\s]+\.[^@\s]+` against `l` up to its end: the
character classes cannot contain `@`, so the `@` of the pattern is the first
`@` of the string; after it there must be a `.` that is neither the first nor
the last remaining character, with every remaining character in `[^@\s]`. -/
def emailCore (l : List Char) : Bool :=
  let a := l.takeWhile (fun c => !(c == '@'))
  match l.drop a.length with
  | '@' :: t =>
      !a.isEmpty && a.all noAtNoWs && t.all noAtNoWs && ((t.drop 1).dropLast).contains '.'
  | _ => false

/-- `re.match(r"^[^@\s]+@[^@\s]+\.[^@\s]+$", email)` is truthy.  Python's `$`
also matches just before a newline at the very end of the string. -/
def pyReMatch (s : String) : Bool :=
  emailCore s.data || (s.data.getLast? == some '\n' && emailCore s.data.dropLast)

/-- `validate_submission` (app.py lines 154-176).  Exceptions inside the time
block are caught (see `timeErrorsOf`); the guest-email block (lines 172-174)
is outside the `try` and its exceptions escape, which the `.error` case
models. -/
def validate_submission (values : PyVal) : Except PyErr (List (String × String)) :=
  let errors := timeErrorsOf values
  match guestEmailValue values with
  | Except.error e => Except.error e
  | Except.ok email =>
      if truthy email then
        match email with
        | PyVal.str s =>
            if pyReMatch s then Except.ok errors
            else Except.ok (dictSet errors "guest_email" "Must be a valid email address.")
        | _ => Except.error PyErr.typeError
      else Except.ok errors

/-- `Except.isOk` for the validator's result type. -/
def validateOk (r : Except PyErr (List (String × String))) : Bool :=
  match r with
  | Except.ok _ => true
  | Except.error _ => false

/-- The three raw strings the time block of `validate_submission` works on:
the (stringified) selected date and the two raw time texts — defined only
when the extractions of lines 157-159 succeed and both time values are
strings. -/
def submissionTimeStrings (values : PyVal) : Except PyErr (String × String × String) :=
  match pyGet3 values "date" "value" "selected_date" with
  | Except.error e => Except.error e
  | Except.ok d =>
  match pyGet3 values "start_time" "value" "value" with
  | Except.error e => Except.error e
  | Except.ok sv =>
  match pyGet3 values "end_time" "value" "value" with
  | Except.error e => Except.error e
  | Except.ok ev =>
  match asStr sv with
  | Except.error e => Except.error e
  | Except.ok ss =>
  match asStr ev with
  | Except.error e => Except.error e
  | Except.ok es => Except.ok (pyStr d, ss, es)

/-- The guest-email field, when present, resolves through the nested
`["value"]["value"]` structure to a string or to a falsy value.  This is the
condition under which the email block of `validate_submission` (lines
172-174, outside the `try`) cannot raise. -/
def guestEmailSafe (values : PyVal) : Prop :=
  ∃ v, guestEmailValue values = Except.ok v ∧
    (truthy v = false ∨ ∃ s, v = PyVal.str s)

/-- Modelled from the claim's informal description of the email check:
"at least one `@`, no whitespace, at least one `.` after the `@`". -/
def emailDescOk (s : String) : Bool :=
  s.data.contains '@' && s.data.all (fun c => !(pyIsSpace c)) &&
    ((s.data.dropWhile (fun c => !(c == '@'))).drop 1).contains '.'

/-- The profile dict returned by `client.users_info(...)["user"]["profile"]`:
`profile.get(...)` yields `None` (`Option.none`) for a missing key. -/
structure SlackProfile where
  email : Option String
  first_name : Option String
  real_name : Option String

/-- The value returned by `get_user_profile`. -/
structure HostProfile where
  email : Option String
  first_name : String
deriving DecidableEq

/-- Python `str.split()` with no argument: split on whitespace runs,
discarding empty pieces. -/
def splitWsGo (cur : List Char) : List Char → List (List Char)
  | [] => if cur.isEmpty then [] else [cur.reverse]
  | c :: cs =>
      if pyIsSpace c then
        (if cur.isEmpty then splitWsGo [] cs else cur.reverse :: splitWsGo [] cs)
      else splitWsGo (c :: cur) cs

/-- `profile.get("real_name").split()[0]`: `AttributeError` when `real_name`
is `None`, `IndexError` when the split list is empty. -/
def fromRealName (p : SlackProfile) : Except PyErr String :=
  match p.real_name with
  | Option.none => Except.error PyErr.attributeError
  | some rn =>
      match splitWsGo [] rn.data with
      | [] => Except.error PyErr.indexError
      | w :: _ => Except.ok (String.mk w)

/-- `profile.get("first_name") or profile.get("real_name").split()[0]`
(line 184): the right operand is evaluated only when `first_name` is falsy. -/
def firstNameFromProfile (p : SlackProfile) : Except PyErr String :=
  match p.first_name with
  | some s => if s.isEmpty then fromRealName p else Except.ok s
  | Option.none => fromRealName p

/-- `get_user_profile` (app.py lines 178-188).  The outcome of the
`client.users_info` call is the parameter `r`; any exception inside the
`try` — a failed lookup as well as a failed first-name derivation — is caught
and the fallback profile is returned. -/
def get_user_profile (r : Except PyErr SlackProfile) : HostProfile :=
  match r with
  | Except.error _ => { email := Option.none, first_name := "Unknown" }
  | Except.ok p =>
      match firstNameFromProfile p with
      | Except.ok fn => { email := p.email, first_name := fn }
      | Except.error _ => { email := Option.none, first_name := "Unknown" }

/-- The fixed administrator recipient (lines 236 and 269). -/
def alannaEmail : String := "alanna.cooper@anterior.com"

/-- The attendee list built by `create_event` (lines 266-269): the host email
only when truthy, then always the administrator. -/
def eventAttendees (host_email : Option String) : List String :=
  (match host_email with
   | some e => if e.isEmpty then [] else [e]
   | Option.none => []) ++ [alannaEmail]

/-- The external calls `handle_submission` can attempt, in order: the
directory lookup of the host profile, the calendar insert, the confirmation
DM to the requesting user, the directory lookup of the administrator by
email, and the DM to the administrator. -/
inductive Effect
  | profileLookup (uid : String)
  | calendarCreate (start_dt end_dt : DateTime) (attendees : List String)
  | dmHost (channel : String)
  | adminLookup (email : String)
  | dmAdmin (channel : String)
deriving DecidableEq

/-- Outcomes of the external calls, fixed per run. -/
structure World where
  profileResult : Except PyErr SlackProfile
  calendarResult : Except PyErr Unit
  hostDmResult : Except PyErr Unit
  adminLookupResult : Except PyErr String

/-- The two parsed instants of `handle_submission` (lines 199-200). -/
structure HandleData where
  sdt : DateTime
  edt : DateTime
deriving DecidableEq

/-- Line 193: `values["guest_email"]["value"]["value"] if "guest_email" in values else None`. -/
def guestEmailOptional (values : PyVal) : Except PyErr PyVal :=
  match pyContains values "guest_email" with
  | Except.error e => Except.error e
  | Except.ok true => pyGet3 values "guest_email" "value" "value"
  | Except.ok false => Except.ok PyVal.none

/-- The field extraction and time re-parsing of `handle_submission` (lines
192-200), in source order; any exception aborts the whole body (it is caught
by the outer `except` of line 252 before any external call is made). -/
def extractHandle (values : PyVal) : Except PyErr HandleData :=
  match pyGet3 values "guest_name" "value" "value" with
  | Except.error e => Except.error e
  | Except.ok _ =>
  match guestEmailOptional values with
  | Except.error e => Except.error e
  | Except.ok _ =>
  match pyGet3 values "date" "value" "selected_date" with
  | Except.error e => Except.error e
  | Except.ok d =>
  match pyGet3 values "start_time" "value" "value" with
  | Except.error e => Except.error e
  | Except.ok sv =>
  match pyGet3 values "end_time" "value" "value" with
  | Except.error e => Except.error e
  | Except.ok ev =>
  match pyGet3 values "reason" "value" "value" with
  | Except.error e => Except.error e
  | Except.ok _ =>
  match asStr sv with
  | Except.error e => Except.error e
  | Except.ok ss =>
  match parse_flexible_time (pyStr d) ss with
  | Option.none => Except.error PyErr.valueError
  | some sdt =>
  match asStr ev with
  | Except.error e => Except.error e
  | Except.ok es =>
  match parse_flexible_time (pyStr d) es with
  | Option.none => Except.error PyErr.valueError
  | some edt => Except.ok { sdt := sdt, edt := edt }

/-- `handle_submission` (app.py lines 190-253), as the trace of external
calls it attempts.  The whole body is wrapped in `try ... except Exception`
(lines 191, 252), so the function always returns (no exception propagates to
the caller); a failing call leaves earlier effects in the trace and — unless
it is one of the two administrator calls, which sit inside their own inner
`try` (lines 235-250) — jumps to the outer handler, skipping the remaining
calls. -/
def handle_submission (values : PyVal) (user_id : String) (w : World) : List Effect :=
  match extractHandle values with
  | Except.error _ => []
  | Except.ok hd =>
      let host := get_user_profile w.profileResult
      let tr := [Effect.profileLookup user_id,
                 Effect.calendarCreate hd.sdt hd.edt (eventAttendees host.email)]
      match w.calendarResult with
      | Except.error _ => tr
      | Except.ok _ =>
          let tr2 := tr ++ [Effect.dmHost user_id]
          match w.hostDmResult with
          | Except.error _ => tr2
          | Except.ok _ =>
              let tr3 := tr2 ++ [Effect.adminLookup alannaEmail]
              match w.adminLookupResult with
              | Except.error _ => tr3
              | Except.ok aid => tr3 ++ [Effect.dmAdmin aid]

/-- The response of the `view_submission` branch of `slack_events`. -/
inductive DispatchResponse
  | errorsResponse (errs : List (String × String))
  | clear
deriving DecidableEq

/-- The `view_submission` branch of `slack_events` (app.py lines 48-69):
validate; on a non-empty errors dict return the inline-errors response
without orchestrating; otherwise run `handle_submission`; any exception in
the branch is caught at line 62 and the `clear` response is returned. -/
def dispatch_submission (values : PyVal) (user_id : String) (w : World) :
    DispatchResponse × List Effect :=
  match validate_submission values with
  | Except.error _ => (DispatchResponse.clear, [])
  | Except.ok errs =>
      if errs.isEmpty then (DispatchResponse.clear, handle_submission values user_id w)
      else (DispatchResponse.errorsResponse errs, [])

/-- Does an effect belong to the administrator-notification step? -/
def isAdminStep : Effect → Bool
  | Effect.adminLookup _ => true
  | Effect.dmAdmin _ => true
  | _ => false

/-- The ASCII digit character of `n % 10`. -/
def digitChar (n : Nat) : Char := Char.ofNat (48 + n % 10)

/-- The zero-padded `YYYY-MM-DD` rendering of a date, the format the Slack
datepicker delivers in `selected_date`. -/
def isoChars (y m d : Nat) : List Char :=
  [digitChar (y / 1000), digitChar (y / 100), digitChar (y / 10), digitChar y,
   '-', digitChar (m / 10), digitChar m, '-', digitChar (d / 10), digitChar d]

/-- `isoChars` as a string. -/
def isoString (y m d : Nat) : String := String.mk (isoChars y m d)

/-- The first input character is not whitespace (or the input is empty). -/
def headNotWs : List Char → Prop
  | [] => True
  | c :: _ => pyIsSpace c = false

/-- A well-formed text field as Slack delivers it: `{"value": {"value": v}}`. -/
def fieldOf (v : String) : PyVal := PyVal.dict [("value", PyVal.dict [("value", PyVal.str v)])]

/-- A well-formed datepicker field: `{"value": {"selected_date": d}}`. -/
def dateFieldOf (d : String) : PyVal :=
  PyVal.dict [("value", PyVal.dict [("selected_date", PyVal.str d)])]

/-- A submission whose start time is unparseable (for claim C1). -/
def valuesC1 : PyVal := PyVal.dict
  [("guest_name", fieldOf "Ada Lovelace"),
   ("date", dateFieldOf "2024-06-01"),
   ("start_time", fieldOf "noon-ish"),
   ("end_time", fieldOf "2:30pm"),
   ("reason", fieldOf "catch-up")]

/-- A fully well-formed submission (for claims C2 and C3). -/
def valuesC2 : PyVal := PyVal.dict
  [("guest_name", fieldOf "Grace Hopper"),
   ("guest_email", fieldOf "grace@navy.mil"),
   ("date", dateFieldOf "2024-06-01"),
   ("start_time", fieldOf "2:30pm"),
   ("end_time", fieldOf "3:30pm"),
   ("reason", fieldOf "demo")]

/-- A world where the calendar insert succeeds and the confirmation DM to the
requesting user fails (for claim C2). -/
def worldC2 : World :=
  { profileResult := Except.ok
      { email := some "host@anterior.com", first_name := some "Tahseen", real_name := Option.none },
    calendarResult := Except.ok (),
    hostDmResult := Except.error PyErr.typeError,
    adminLookupResult := Except.ok "UALANNA" }

/-- A world where the calendar insert fails (for claim C3). -/
def worldC3 : World :=
  { profileResult := Except.ok
      { email := some "host@anterior.com", first_name := some "Tahseen", real_name := Option.none },
    calendarResult := Except.error PyErr.valueError,
    hostDmResult := Except.ok (),
    adminLookupResult := Except.ok "UALANNA" }

/-- A world where every external call succeeds (for claim C4's witness). -/
def worldOk : World :=
  { profileResult := Except.ok
      { email := some "host@anterior.com", first_name := some "Tahseen", real_name := Option.none },
    calendarResult := Except.ok (),
    hostDmResult := Except.ok (),
    adminLookupResult := Except.ok "UALANNA" }

/-- A submission with an unparseable start time (for claim C4's witness). -/
def valuesC4 : PyVal := PyVal.dict
  [("guest_name", fieldOf "Alan Turing"),
   ("date", dateFieldOf "2024-06-01"),
   ("start_time", fieldOf "whenever"),
   ("end_time", fieldOf "3:30pm"),
   ("reason", fieldOf "tea")]

/-- A mapping whose `guest_email` entry lacks the nested structure
(for claim C7): line 172 then raises `KeyError` outside any `try`. -/
def valuesC7 : PyVal := PyVal.dict [("guest_email", PyVal.dict [])]

/-- A well-formed submission with start at 3:30 PM and end at 2:30 PM
(for claim C8's witness). -/
def valuesC8 : PyVal := PyVal.dict
  [("guest_name", fieldOf "Edsger Dijkstra"),
   ("date", dateFieldOf "2024-06-01"),
   ("start_time", fieldOf "3:30 PM"),
   ("end_time", fieldOf "2:30 PM"),
   ("reason", fieldOf "lecture")]

/-- A submission whose guest email satisfies the claim's informal pattern
description but fails the actual regex (for claim C9). -/
def valuesC9 : PyVal := PyVal.dict
  [("guest_name", fieldOf "Barbara Liskov"),
   ("guest_email", fieldOf "@a.b"),
   ("date", dateFieldOf "2024-06-01"),
   ("start_time", fieldOf "2:30pm"),
   ("end_time", fieldOf "3:30pm"),
   ("reason", fieldOf "talk")]

/-- A submission with the spec's example invalid email (for claim C9's
witness). -/
def valuesC9w : PyVal := PyVal.dict
  [("guest_name", fieldOf "Donald Knuth"),
   ("guest_email", fieldOf "not-an-email"),
   ("date", dateFieldOf "2024-06-01"),
   ("start_time", fieldOf "2:30pm"),
   ("end_time", fieldOf "3:30pm"),
   ("reason", fieldOf "review")]

/-- `digitVal` of a digit character recovers the digit. -/
lemma digitVal_digitChar (n : Nat) : digitVal (digitChar n) = some (n % 10) := by
  have h : n % 10 < 10 := Nat.mod_lt _ (by norm_num)
  unfold digitChar
  revert h
  generalize n % 10 = k
  intro h
  interval_cases k <;> decide

lemma pyIsSpace_digitChar (n : Nat) : pyIsSpace (digitChar n) = false := by
  have h : n % 10 < 10 := Nat.mod_lt _ (by norm_num)
  unfold digitChar
  revert h
  generalize n % 10 = k
  intro h
  interval_cases k <;> decide

lemma eqIC_hyphen_digitChar (n : Nat) : eqIC '-' (digitChar n) = false := by
  have h : n % 10 < 10 := Nat.mod_lt _ (by norm_num)
  unfold digitChar
  revert h
  generalize n % 10 = k
  intro h
  interval_cases k <;> decide

lemma matchDigitsAux_digit (acc lo hi n : Nat) (ps : List DPat) (cs : List Char)
    (h1 : lo ≤ n % 10) (h2 : n % 10 ≤ hi) :
    matchDigitsAux acc (DPat.mk lo hi :: ps) (digitChar n :: cs) =
      matchDigitsAux (acc * 10 + n % 10) ps cs := by
  simp only [matchDigitsAux, digitVal_digitChar]
  rw [if_pos ⟨h1, h2⟩]

lemma matchDigitsAux_digit_fail (acc lo hi n : Nat) (ps : List DPat) (cs : List Char)
    (h : ¬ (lo ≤ n % 10 ∧ n % 10 ≤ hi)) :
    matchDigitsAux acc (DPat.mk lo hi :: ps) (digitChar n :: cs) = Option.none := by
  simp only [matchDigitsAux, digitVal_digitChar]
  rw [if_neg h]

lemma matchDigitsAux_nil (acc : Nat) (s : List Char) :
    matchDigitsAux acc [] s = some (acc, s) := rfl

/-- A literal token consuming a matching character. -/
lemma matchF_lit_ok (fuel : Nat) (c c2 : Char) (ts : List Tok) (s : List Char) (caps : Caps)
    (h : eqIC c c2 = true) :
    matchToksF (fuel + 1) (Tok.lit c :: ts) (c2 :: s) caps = matchToksF fuel ts s caps := by
  simp only [matchToksF, h, if_true]

/-- A literal token rejecting a non-matching character. -/
lemma matchF_lit_fail (fuel : Nat) (c c2 : Char) (ts : List Tok) (s : List Char) (caps : Caps)
    (h : eqIC c c2 = false) :
    matchToksF (fuel + 1) (Tok.lit c :: ts) (c2 :: s) caps = Option.none := by
  simp only [matchToksF, h]
  rfl

/-- `\s+` consuming exactly the one space before a non-space character. -/
lemma matchF_ws_one (fuel : Nat) (ts : List Tok) (rest : List Char) (caps : Caps)
    (hrest : headNotWs rest) :
    matchToksF (fuel + 1) (Tok.ws :: ts) (' ' :: rest) caps = matchToksF fuel ts rest caps := by
  have hsp : pyIsSpace ' ' = true := by decide
  have htw : List.takeWhile pyIsSpace rest = [] := by
    cases rest with
    | nil => rfl
    | cons c cs =>
        unfold headNotWs at hrest
        simp [List.takeWhile, hrest]
  have h2 : List.takeWhile pyIsSpace (' ' :: rest) = [' '] := by
    simp [List.takeWhile, hsp, htw]
  simp only [matchToksF, h2]
  norm_num

/-- `\s+` failing on a digit character. -/
lemma matchF_ws_digit (fuel : Nat) (ts : List Tok) (n : Nat) (cs : List Char) (caps : Caps) :
    matchToksF (fuel + 1) (Tok.ws :: ts) (digitChar n :: cs) caps = Option.none := by
  have h2 : List.takeWhile pyIsSpace (digitChar n :: cs) = [] := by
    simp [List.takeWhile, pyIsSpace_digitChar]
  simp only [matchToksF, h2]
  norm_num

/-- `%Y` consuming the four year digits of an ISO date. -/
lemma matchF_year (fuel y : Nat) (hy : y ≤ 9999) (ts : List Tok) (cs : List Char) (caps : Caps) :
    matchToksF (fuel + 1) (Tok.num NumField.year yearAlts :: ts)
      (digitChar (y / 1000) :: digitChar (y / 100) :: digitChar (y / 10) :: digitChar y :: cs)
      caps =
      matchToksF fuel ts cs { caps with y := some y } := by
  have hval : (((0 * 10 + y / 1000 % 10) * 10 + y / 100 % 10) * 10 + y / 10 % 10) * 10 + y % 10
      = y := by omega
  simp only [matchToksF, yearAlts, d09, List.findSome?]
  rw [matchDigitsAux_digit _ _ _ _ _ _ (by omega) (by omega),
      matchDigitsAux_digit _ _ _ _ _ _ (by omega) (by omega),
      matchDigitsAux_digit _ _ _ _ _ _ (by omega) (by omega),
      matchDigitsAux_digit _ _ _ _ _ _ (by omega) (by omega),
      matchDigitsAux_nil, hval]
  simp only [Caps.setNum]
  cases h : matchToksF fuel ts cs { caps with y := some y } <;> simp [h]

/-- `%m-` consuming the zero-padded month digits and the following hyphen of
an ISO date, whatever the rest of the format does.  The later alternatives of
the `%m` alternation cannot produce a different overall match: on a padded
month they either fail on the digits or leave a digit in front of the `-`
literal. -/
lemma matchF_month (fuel m : Nat) (h1 : 1 ≤ m) (h2 : m ≤ 12) (ts : List Tok) (cs : List Char)
    (caps : Caps) :
    matchToksF (fuel + 2) (Tok.num NumField.month monthAlts :: Tok.lit '-' :: ts)
      (digitChar (m / 10) :: digitChar m :: '-' :: cs) caps =
      matchToksF fuel ts cs { caps with mo := some m } := by
  have hdd : eqIC '-' '-' = true := by decide
  rcases Nat.lt_or_ge m 10 with hm | hm
  · rw [show m / 10 = 0 from by omega]
    simp only [matchToksF, monthAlts, List.findSome?]
    rw [matchDigitsAux_digit_fail _ _ _ _ _ _ (by omega)]
    rw [matchDigitsAux_digit _ _ _ _ _ _ (by omega) (by omega),
        matchDigitsAux_digit _ _ _ _ _ _ (by omega) (by omega),
        matchDigitsAux_nil]
    rw [show 0 * 10 + 0 % 10 = 0 from by omega, show 0 * 10 + m % 10 = m from by omega]
    rw [matchDigitsAux_digit_fail _ _ _ _ _ _ (by omega)]
    simp only [Caps.setNum]
    cases h : matchToksF fuel ts cs { caps with mo := some m } <;> simp [h, hdd]
  · rw [show m / 10 = 1 from by omega]
    simp only [matchToksF, monthAlts, List.findSome?]
    rw [matchDigitsAux_digit _ _ _ _ _ _ (by omega) (by omega),
        matchDigitsAux_digit _ _ _ _ _ _ (by omega) (by omega),
        matchDigitsAux_nil]
    rw [show (0 * 10 + 1 % 10) * 10 + m % 10 = m from by omega]
    rw [matchDigitsAux_digit_fail _ _ _ _ _ _ (by omega)]
    rw [matchDigitsAux_digit _ _ _ _ _ _ (by omega) (by omega), matchDigitsAux_nil]
    rw [show 0 * 10 + 1 % 10 = 1 from by omega]
    simp only [Caps.setNum]
    cases h : matchToksF fuel ts cs { caps with mo := some m } <;>
      simp [h, hdd, eqIC_hyphen_digitChar]

/-- Unfold one numeric-directive token without touching the continuation. -/
lemma matchF_num (fuel : Nat) (f : NumField) (alts : List (List DPat)) (ts : List Tok)
    (s : List Char) (caps : Caps) :
    matchToksF (fuel + 1) (Tok.num f alts :: ts) s caps =
      alts.findSome? (fun a =>
        match matchDigitsAux 0 a s with
        | some (v, s2) => matchToksF fuel ts s2 (Caps.setNum caps f v)
        | Option.none => Option.none) := by
  simp only [matchToksF]

/-- `%d` then `\s+` consuming the zero-padded day digits and the following
space of `f"{date_str} {time_str}"`.  As for the month, the unpreferred
alternatives of the `%d` alternation either fail on the digits or leave a
digit where `\s+` must match, so they never yield a different overall
match. -/
lemma matchF_day (fuel d : Nat) (h1 : 1 ≤ d) (h2 : d ≤ 31) (ts : List Tok) (rest : List Char)
    (caps : Caps) (hrest : headNotWs rest) :
    matchToksF (fuel + 2) (Tok.num NumField.day dayAlts :: Tok.ws :: ts)
      (digitChar (d / 10) :: digitChar d :: ' ' :: rest) caps =
      matchToksF fuel ts rest { caps with dy := some d } := by
  have hsplit : d / 10 = 0 ∨ d / 10 = 1 ∨ d / 10 = 2 ∨ d / 10 = 3 := by omega
  rw [show fuel + 2 = (fuel + 1) + 1 from rfl, matchF_num]
  simp only [dayAlts, d09, List.findSome?]
  rcases hsplit with h10 | h10 | h10 | h10
  · rw [h10]
    rw [matchDigitsAux_digit_fail 0 3 3 0 [DPat.mk 0 1] _ (by omega)]
    rw [matchDigitsAux_digit_fail 0 1 2 0 [DPat.mk 0 9] _ (by omega)]
    rw [matchDigitsAux_digit 0 0 0 0 [DPat.mk 1 9] _ (by omega) (by omega)]
    rw [matchDigitsAux_digit _ 1 9 d [] _ (by omega) (by omega), matchDigitsAux_nil]
    rw [show (0 * 10 + 0 % 10) * 10 + d % 10 = d from by omega]
    rw [matchDigitsAux_digit_fail 0 1 9 0 [] _ (by omega)]
    simp only [Caps.setNum]
    rw [matchF_ws_one _ _ _ _ hrest]
    cases h : matchToksF fuel ts rest { caps with dy := some d } <;> simp [h]
  · rw [h10]
    rw [matchDigitsAux_digit_fail 0 3 3 1 [DPat.mk 0 1] _ (by omega)]
    rw [matchDigitsAux_digit 0 1 2 1 [DPat.mk 0 9] _ (by omega) (by omega)]
    rw [matchDigitsAux_digit _ 0 9 d [] _ (by omega) (by omega), matchDigitsAux_nil]
    rw [show (0 * 10 + 1 % 10) * 10 + d % 10 = d from by omega]
    rw [matchDigitsAux_digit_fail 0 0 0 1 [DPat.mk 1 9] _ (by omega)]
    rw [matchDigitsAux_digit 0 1 9 1 [] _ (by omega) (by omega), matchDigitsAux_nil]
    rw [show 0 * 10 + 1 % 10 = 1 from by omega]
    simp only [Caps.setNum]
    rw [matchF_ws_one _ _ _ _ hrest, matchF_ws_digit]
    cases h : matchToksF fuel ts rest { caps with dy := some d } <;> simp [h]
  · rw [h10]
    rw [matchDigitsAux_digit_fail 0 3 3 2 [DPat.mk 0 1] _ (by omega)]
    rw [matchDigitsAux_digit 0 1 2 2 [DPat.mk 0 9] _ (by omega) (by omega)]
    rw [matchDigitsAux_digit _ 0 9 d [] _ (by omega) (by omega), matchDigitsAux_nil]
    rw [show (0 * 10 + 2 % 10) * 10 + d % 10 = d from by omega]
    rw [matchDigitsAux_digit_fail 0 0 0 2 [DPat.mk 1 9] _ (by omega)]
    rw [matchDigitsAux_digit 0 1 9 2 [] _ (by omega) (by omega), matchDigitsAux_nil]
    rw [show 0 * 10 + 2 % 10 = 2 from by omega]
    simp only [Caps.setNum]
    rw [matchF_ws_one _ _ _ _ hrest, matchF_ws_digit]
    cases h : matchToksF fuel ts rest { caps with dy := some d } <;> simp [h]
  · rw [h10]
    rw [matchDigitsAux_digit 0 3 3 3 [DPat.mk 0 1] _ (by omega) (by omega)]
    rw [matchDigitsAux_digit _ 0 1 d [] _ (by omega) (by omega), matchDigitsAux_nil]
    rw [show (0 * 10 + 3 % 10) * 10 + d % 10 = d from by omega]
    rw [matchDigitsAux_digit_fail 0 1 2 3 [DPat.mk 0 9] _ (by omega)]
    rw [matchDigitsAux_digit_fail 0 0 0 3 [DPat.mk 1 9] _ (by omega)]
    rw [matchDigitsAux_digit 0 1 9 3 [] _ (by omega) (by omega), matchDigitsAux_nil]
    rw [show 0 * 10 + 3 % 10 = 3 from by omega]
    simp only [Caps.setNum]
    rw [matchF_ws_one _ _ _ _ hrest, matchF_ws_digit]
    cases h : matchToksF fuel ts rest { caps with dy := some d } <;> simp [h]

/-- The compiled `"%Y-%m-%d "` prefix consumes exactly the ISO date and the
separating space of `f"{date_str} {time_str}"`, capturing year, month and
day; the remaining format then runs against the normalized time text. -/
lemma matchF_date (fuel y m d : Nat) (hy : y ≤ 9999) (hm1 : 1 ≤ m) (hm2 : m ≤ 12)
    (hd1 : 1 ≤ d) (hd2 : d ≤ 31) (ts : List Tok) (rest : List Char) (caps : Caps)
    (hrest : headNotWs rest) :
    matchToksF (fuel + 6) (dateToks ++ ts) (isoChars y m d ++ ' ' :: rest) caps =
      matchToksF fuel ts rest { caps with y := some y, mo := some m, dy := some d } := by
  simp only [dateToks, isoChars, List.cons_append, List.nil_append]
  rw [show fuel + 6 = (fuel + 5) + 1 from by omega]
  rw [matchF_year _ _ hy]
  rw [show fuel + 5 = (fuel + 4) + 1 from by omega]
  rw [matchF_lit_ok _ _ _ _ _ _ (by decide)]
  rw [show fuel + 4 = (fuel + 2) + 2 from by omega]
  rw [matchF_month _ _ hm1 hm2]
  rw [matchF_day _ _ hd1 hd2 _ _ _ hrest]

/-- `"%I:%M %p"` fully matches the normalized `"2:30 pm"`. -/
lemma fmt1_on_230pm (caps : Caps) :
    matchToksF 5 fmt1Toks ['2', ':', '3', '0', ' ', 'p', 'm'] caps =
      some ({ caps with h12 := some 2, mi := some 30, pm := some true }, []) := rfl

/-- `"%I:%M %p"` fully matches the normalized `"2:30  pm"` (the double space
produced by `.replace("pm", " pm")` on an input that already had a space:
`\s+` absorbs both). -/
lemma fmt1_on_230_pm2 (caps : Caps) :
    matchToksF 5 fmt1Toks ['2', ':', '3', '0', ' ', ' ', 'p', 'm'] caps =
      some ({ caps with h12 := some 2, mi := some 30, pm := some true }, []) := rfl

/-- `"%I:%M %p"` fails on `"14:30"`. -/
lemma fmt1_on_1430 (caps : Caps) :
    matchToksF 5 fmt1Toks ['1', '4', ':', '3', '0'] caps = Option.none := rfl

/-- `"%I %p"` fails on `"14:30"`. -/
lemma fmt2_on_1430 (caps : Caps) :
    matchToksF 3 fmt2Toks ['1', '4', ':', '3', '0'] caps = Option.none := rfl

/-- `"%H:%M"` fully matches `"14:30"`. -/
lemma fmt3_on_1430 (caps : Caps) :
    matchToksF 3 fmt3Toks ['1', '4', ':', '3', '0'] caps =
      some ({ caps with h24 := some 14, mi := some 30 }, []) := rfl

/-- Every month length is at most 31. -/
lemma daysInMonth_le (y m : Nat) : daysInMonth y m ≤ 31 := by
  unfold daysInMonth
  split_ifs <;> omega

/-- The date-time built from the captures of a `h:mm pm` match. -/
lemma capsToDateTime_pm (y m d : Nat) (hy1 : 1 ≤ y) (hy2 : y ≤ 9999) (hm1 : 1 ≤ m)
    (hm2 : m ≤ 12) (hd1 : 1 ≤ d) (hd2 : d ≤ daysInMonth y m) :
    capsToDateTime
      { y := some y, mo := some m, dy := some d, h12 := some 2, mi := some 30, pm := some true }
      = some ⟨y, m, d, 14, 30⟩ := by
  simp only [capsToDateTime, Option.getD]
  norm_num
  intro h
  have := h hy1 hy2 hm1 hm2 hd1
  omega

/-- The date-time built from the captures of a `H:mm` match. -/
lemma capsToDateTime_h24 (y m d : Nat) (hy1 : 1 ≤ y) (hy2 : y ≤ 9999) (hm1 : 1 ≤ m)
    (hm2 : m ≤ 12) (hd1 : 1 ≤ d) (hd2 : d ≤ daysInMonth y m) :
    capsToDateTime { y := some y, mo := some m, dy := some d, h24 := some 14, mi := some 30 } =
      some ⟨y, m, d, 14, 30⟩ := by
  simp only [capsToDateTime, Option.getD]
  rw [if_pos ⟨hy1, hy2, hm1, hm2, hd1, hd2, by norm_num, by norm_num⟩]

/-- `headNotWs` holds for the normalized time texts used below. -/
lemma headNotWs_of_digit (n : Nat) (cs : List Char) : headNotWs (digitChar n :: cs) := by
  simp only [headNotWs]
  exact pyIsSpace_digitChar n

/-- Attempting `"%Y-%m-%d %I:%M %p"` on an ISO date and `"2:30 pm"` succeeds. -/
lemma strptime_fmt1_succ (y m d : Nat) (hy1 : 1 ≤ y) (hy2 : y ≤ 9999) (hm1 : 1 ≤ m)
    (hm2 : m ≤ 12) (hd1 : 1 ≤ d) (hd2 : d ≤ daysInMonth y m) :
    strptimeRun (dateToks ++ fmt1Toks) (isoChars y m d ++ ' ' :: ['2', ':', '3', '0', ' ', 'p', 'm']) =
      some ⟨y, m, d, 14, 30⟩ := by
  have hd31 : d ≤ 31 := le_trans hd2 (daysInMonth_le y m)
  unfold strptimeRun
  rw [show (dateToks ++ fmt1Toks).length = 5 + 6 from rfl]
  rw [matchF_date 5 y m d hy2 hm1 hm2 hd1 hd31 _ _ _ (by simp [headNotWs]; decide)]
  rw [fmt1_on_230pm]
  simp only [List.nil_eq, if_true]
  exact capsToDateTime_pm y m d hy1 hy2 hm1 hm2 hd1 hd2

/-- Attempting `"%Y-%m-%d %I:%M %p"` on an ISO date and `"2:30  pm"` succeeds. -/
lemma strptime_fmt1_succ2 (y m d : Nat) (hy1 : 1 ≤ y) (hy2 : y ≤ 9999) (hm1 : 1 ≤ m)
    (hm2 : m ≤ 12) (hd1 : 1 ≤ d) (hd2 : d ≤ daysInMonth y m) :
    strptimeRun (dateToks ++ fmt1Toks)
      (isoChars y m d ++ ' ' :: ['2', ':', '3', '0', ' ', ' ', 'p', 'm']) =
      some ⟨y, m, d, 14, 30⟩ := by
  have hd31 : d ≤ 31 := le_trans hd2 (daysInMonth_le y m)
  unfold strptimeRun
  rw [show (dateToks ++ fmt1Toks).length = 5 + 6 from rfl]
  rw [matchF_date 5 y m d hy2 hm1 hm2 hd1 hd31 _ _ _ (by simp [headNotWs]; decide)]
  rw [fmt1_on_230_pm2]
  simp only [List.nil_eq, if_true]
  exact capsToDateTime_pm y m d hy1 hy2 hm1 hm2 hd1 hd2

/-- Attempting `"%Y-%m-%d %I:%M %p"` on an ISO date and `"14:30"` fails. -/
lemma strptime_fmt1_1430 (y m d : Nat) (hy2 : y ≤ 9999) (hm1 : 1 ≤ m)
    (hm2 : m ≤ 12) (hd1 : 1 ≤ d) (hd31 : d ≤ 31) :
    strptimeRun (dateToks ++ fmt1Toks) (isoChars y m d ++ ' ' :: ['1', '4', ':', '3', '0']) =
      Option.none := by
  unfold strptimeRun
  rw [show (dateToks ++ fmt1Toks).length = 5 + 6 from rfl]
  rw [matchF_date 5 y m d hy2 hm1 hm2 hd1 hd31 _ _ _ (by simp [headNotWs]; decide)]
  rw [fmt1_on_1430]

/-- Attempting `"%Y-%m-%d %I %p"` on an ISO date and `"14:30"` fails. -/
lemma strptime_fmt2_1430 (y m d : Nat) (hy2 : y ≤ 9999) (hm1 : 1 ≤ m)
    (hm2 : m ≤ 12) (hd1 : 1 ≤ d) (hd31 : d ≤ 31) :
    strptimeRun (dateToks ++ fmt2Toks) (isoChars y m d ++ ' ' :: ['1', '4', ':', '3', '0']) =
      Option.none := by
  unfold strptimeRun
  rw [show (dateToks ++ fmt2Toks).length = 3 + 6 from rfl]
  rw [matchF_date 3 y m d hy2 hm1 hm2 hd1 hd31 _ _ _ (by simp [headNotWs]; decide)]
  rw [fmt2_on_1430]

/-- Attempting `"%Y-%m-%d %H:%M"` on an ISO date and `"14:30"` succeeds. -/
lemma strptime_fmt3_1430 (y m d : Nat) (hy1 : 1 ≤ y) (hy2 : y ≤ 9999) (hm1 : 1 ≤ m)
    (hm2 : m ≤ 12) (hd1 : 1 ≤ d) (hd2 : d ≤ daysInMonth y m) :
    strptimeRun (dateToks ++ fmt3Toks) (isoChars y m d ++ ' ' :: ['1', '4', ':', '3', '0']) =
      some ⟨y, m, d, 14, 30⟩ := by
  have hd31 : d ≤ 31 := le_trans hd2 (daysInMonth_le y m)
  unfold strptimeRun
  rw [show (dateToks ++ fmt3Toks).length = 3 + 6 from rfl]
  rw [matchF_date 3 y m d hy2 hm1 hm2 hd1 hd31 _ _ _ (by simp [headNotWs]; decide)]
  rw [fmt3_on_1430]
  simp only [List.nil_eq, if_true]
  exact capsToDateTime_h24 y m d hy1 hy2 hm1 hm2 hd1 hd2

/-- Claim C5: for every calendar date, `TimeParser.parse` (= `parse_flexible_time`)
succeeds on "2:30pm", "2:30 PM", "2.30pm" and "14:30", and the first three
return exactly the instant 14:30 of that date (as does "14:30"). -/
theorem C5_time_formats (y m d : Nat) (hy1 : 1 ≤ y) (hy2 : y ≤ 9999) (hm1 : 1 ≤ m) (hm2 : m ≤ 12)
    (hd1 : 1 ≤ d) (hd2 : d ≤ daysInMonth y m) :
    parse_flexible_time (isoString y m d) "2:30pm" = some ⟨y, m, d, 14, 30⟩ ∧
    parse_flexible_time (isoString y m d) "2:30 PM" = some ⟨y, m, d, 14, 30⟩ ∧
    parse_flexible_time (isoString y m d) "2.30pm" = some ⟨y, m, d, 14, 30⟩ ∧
    parse_flexible_time (isoString y m d) "14:30" = some ⟨y, m, d, 14, 30⟩ := by
  have hd31 : d ≤ 31 := le_trans hd2 (daysInMonth_le y m)
  have hdat : (isoString y m d).data = isoChars y m d := rfl
  refine ⟨?_, ?_, ?_, ?_⟩
  · have hn : normalize_time "2:30pm" = ['2', ':', '3', '0', ' ', 'p', 'm'] := rfl
    simp only [parse_flexible_time, hn, hdat, fmtToksList, List.findSome?]
    rw [strptime_fmt1_succ y m d hy1 hy2 hm1 hm2 hd1 hd2]
  · have hn : normalize_time "2:30 PM" = ['2', ':', '3', '0', ' ', ' ', 'p', 'm'] := rfl
    simp only [parse_flexible_time, hn, hdat, fmtToksList, List.findSome?]
    rw [strptime_fmt1_succ2 y m d hy1 hy2 hm1 hm2 hd1 hd2]
  · have hn : normalize_time "2.30pm" = ['2', ':', '3', '0', ' ', 'p', 'm'] := rfl
    simp only [parse_flexible_time, hn, hdat, fmtToksList, List.findSome?]
    rw [strptime_fmt1_succ y m d hy1 hy2 hm1 hm2 hd1 hd2]
  · have hn : normalize_time "14:30" = ['1', '4', ':', '3', '0'] := rfl
    simp only [parse_flexible_time, hn, hdat, fmtToksList, List.findSome?]
    rw [strptime_fmt1_1430 y m d hy2 hm1 hm2 hd1 hd31,
        strptime_fmt2_1430 y m d hy2 hm1 hm2 hd1 hd31,
        strptime_fmt3_1430 y m d hy1 hy2 hm1 hm2 hd1 hd2]

/-- When the raw extraction succeeds, the time block reduces to parsing the
two texts and comparing. -/
lemma validateTimesPart_of_strings (values : PyVal) (dv ss es : String)
    (h : submissionTimeStrings values = Except.ok (dv, ss, es)) :
    validateTimesPart values =
      (match parse_flexible_time dv ss with
       | Option.none => Except.error PyErr.valueError
       | some start_dt =>
         match parse_flexible_time dv es with
         | Option.none => Except.error PyErr.valueError
         | some end_dt =>
           Except.ok (if dtGe start_dt end_dt then
             [("end_time", "End time must be after start time.")] else [])) := by
  unfold submissionTimeStrings at h
  unfold validateTimesPart
  cases h1 : pyGet3 values "date" "value" "selected_date" with
  | error e => simp [h1] at h
  | ok d =>
    simp only [h1] at h ⊢
    cases h2 : pyGet3 values "start_time" "value" "value" with
    | error e => simp [h2] at h
    | ok sv =>
      simp only [h2] at h ⊢
      cases h3 : pyGet3 values "end_time" "value" "value" with
      | error e => simp [h3] at h
      | ok ev =>
        simp only [h3] at h ⊢
        cases h4 : asStr sv with
        | error e => simp [h4] at h
        | ok ss2 =>
          simp only [h4] at h ⊢
          cases h5 : asStr ev with
          | error e => simp [h5] at h
          | ok es2 =>
            simp only [h5] at h ⊢
            simp only [Except.ok.injEq, Prod.mk.injEq] at h
            obtain ⟨hd, hss, hes⟩ := h
            subst hd hss hes
            rfl

lemma lookupErr_dictSet_self (es : List (String × String)) (k v : String) :
    lookupErr (dictSet es k v) k = some v := by
  induction es with
  | nil => simp [dictSet, lookupErr]
  | cons p rest ih =>
      obtain ⟨k2, v2⟩ := p
      by_cases hk : k2 = k
      · simp [dictSet, lookupErr, hk]
      · simp [dictSet, lookupErr, hk, ih]

lemma lookupErr_dictSet_other (es : List (String × String)) (k v key : String) (h : k ≠ key) :
    lookupErr (dictSet es k v) key = lookupErr es key := by
  induction es with
  | nil => simp [dictSet, lookupErr, h]
  | cons p rest ih =>
      obtain ⟨k2, v2⟩ := p
      by_cases hk : k2 = k
      · subst hk
        simp [dictSet, lookupErr, h]
      · simp [dictSet, lookupErr, hk, ih]

/-- A successful time block yields no entry, or the single end-time entry. -/
lemma validateTimesPart_shape (values : PyVal) (errs : List (String × String))
    (h : validateTimesPart values = Except.ok errs) :
    errs = [] ∨ errs = [("end_time", "End time must be after start time.")] := by
  unfold validateTimesPart at h
  repeat' split at h
  all_goals simp_all

/-- The time block only ever produces `start_time`/`end_time` entries. -/
lemma lookupErr_timeErrorsOf_guest (values : PyVal) :
    lookupErr (timeErrorsOf values) "guest_email" = Option.none := by
  unfold timeErrorsOf
  cases h : validateTimesPart values with
  | error e => simp [lookupErr]
  | ok errs =>
      rcases validateTimesPart_shape values errs h with rfl | rfl <;> simp [lookupErr]

/-- The validator's successful result is the time-block errors dict, possibly
extended with the single guest-email entry. -/
lemma validate_ok_shape (values : PyVal) (base errs : List (String × String))
    (hte : timeErrorsOf values = base)
    (hok : validate_submission values = Except.ok errs) :
    errs = base ∨ errs = dictSet base "guest_email" "Must be a valid email address." := by
  simp only [validate_submission] at hok
  rw [hte] at hok
  cases hg : guestEmailValue values with
  | error e => simp [hg] at hok
  | ok email =>
    simp only [hg] at hok
    by_cases ht : truthy email = true
    · rw [if_pos ht] at hok
      cases email with
      | str s =>
          by_cases hm : pyReMatch s = true
          · simp [hm] at hok
            subst hok
            exact Or.inl rfl
          · simp [hm] at hok
            subst hok
            exact Or.inr rfl
      | none => simp [truthy] at ht
      | dict es2 => simp at hok
    · rw [if_neg ht] at hok
      simp only [Except.ok.injEq] at hok
      subst hok
      exact Or.inl rfl

/-- Claim C1, corrected: when either time text fails to parse, both time
fields receive a generic error, but with slightly different texts (start:
2:30/14:30 examples; end: 3:30/15:30 examples, lines 169-170). -/
theorem C1_time_error_messages (values : PyVal) (errs : List (String × String))
    (dv ss es : String)
    (hstr : submissionTimeStrings values = Except.ok (dv, ss, es))
    (hfail : parse_flexible_time dv ss = Option.none ∨ parse_flexible_time dv es = Option.none)
    (hok : validate_submission values = Except.ok errs) :
    lookupErr errs "start_time" = some "Enter time like 2:30 PM or 14:30" ∧
    lookupErr errs "end_time" = some "Enter time like 3:30 PM or 15:30" := by
  have hvt : validateTimesPart values = Except.error PyErr.valueError := by
    rw [validateTimesPart_of_strings values dv ss es hstr]
    rcases hfail with hf | hf
    · rw [hf]
    · cases hp : parse_flexible_time dv ss <;> simp [hp, hf]
  have hte : timeErrorsOf values =
      [("start_time", "Enter time like 2:30 PM or 14:30"),
       ("end_time", "Enter time like 3:30 PM or 15:30")] := by
    unfold timeErrorsOf
    rw [hvt]
  rcases validate_ok_shape values _ errs hte hok with rfl | rfl
  · exact ⟨rfl, rfl⟩
  · refine ⟨?_, ?_⟩
    · rw [lookupErr_dictSet_other _ _ _ _ (by decide)]
      rfl
    · rw [lookupErr_dictSet_other _ _ _ _ (by decide)]
      rfl

/-- Claim C1, counterexample: on an unparseable start time the two attached
messages are not identical, refuting "the same (identical) error message
string ... to both". -/
theorem C1_counterexample :
    validate_submission valuesC1 =
      Except.ok [("start_time", "Enter time like 2:30 PM or 14:30"),
                 ("end_time", "Enter time like 3:30 PM or 15:30")] ∧
    ("Enter time like 2:30 PM or 14:30" : String) ≠ "Enter time like 3:30 PM or 15:30" := by
  constructor
  · rfl
  · decide

/-- Claim C1, witness for `C1_time_error_messages` at `valuesC1`. -/
theorem C1_witness :
    lookupErr [("start_time", "Enter time like 2:30 PM or 14:30"),
               ("end_time", "Enter time like 3:30 PM or 15:30")] "start_time" =
        some "Enter time like 2:30 PM or 14:30" ∧
    lookupErr [("start_time", "Enter time like 2:30 PM or 14:30"),
               ("end_time", "Enter time like 3:30 PM or 15:30")] "end_time" =
        some "Enter time like 3:30 PM or 15:30" :=
  C1_time_error_messages valuesC1 _ "2024-06-01" "noon-ish" "2:30pm" rfl (Or.inl rfl) rfl

/-- Claim C7, corrected: `validate_submission` cannot raise provided the
guest-email field (the only code outside the `try`) resolves to a string or
falsy value; every time-block failure becomes a field error. -/
theorem C7_never_raises (values : PyVal) (h : guestEmailSafe values) :
    validateOk (validate_submission values) = true := by
  obtain ⟨v, hv, hcase⟩ := h
  simp only [validate_submission, hv]
  rcases hcase with hf | ⟨s, rfl⟩
  · simp [hf, validateOk]
  · by_cases ht : truthy (PyVal.str s) = true
    · simp only [ht, if_true]
      by_cases hm : pyReMatch s = true <;> simp [hm, validateOk]
    · simp [ht, validateOk]

/-- Claim C7, counterexample: a mapping whose `guest_email` entry is an empty
dict makes line 172 raise `KeyError` outside any `try`, so
`validate_submission` does raise. -/
theorem C7_counterexample :
    validate_submission valuesC7 = Except.error (PyErr.keyError "value") := rfl

/-- Claim C7, witness for `C7_never_raises` at the empty mapping. -/
theorem C7_witness : validateOk (validate_submission (PyVal.dict [])) = true :=
  C7_never_raises (PyVal.dict []) ⟨PyVal.str "", rfl, Or.inl rfl⟩

/-- Claim C8: when both times parse and start ≥ end, only the end-time field
gets the "End time must be after start time." error; the start-time field
gets none. -/
theorem C8_end_before_start (values : PyVal) (errs : List (String × String))
    (dv ss es : String) (sdt edt : DateTime)
    (hstr : submissionTimeStrings values = Except.ok (dv, ss, es))
    (hs : parse_flexible_time dv ss = some sdt)
    (he : parse_flexible_time dv es = some edt)
    (hge : dtGe sdt edt = true)
    (hok : validate_submission values = Except.ok errs) :
    lookupErr errs "end_time" = some "End time must be after start time." ∧
    lookupErr errs "start_time" = Option.none := by
  have hvt : validateTimesPart values =
      Except.ok [("end_time", "End time must be after start time.")] := by
    rw [validateTimesPart_of_strings values dv ss es hstr]
    simp [hs, he, hge]
  have hte : timeErrorsOf values = [("end_time", "End time must be after start time.")] := by
    unfold timeErrorsOf
    rw [hvt]
  rcases validate_ok_shape values _ errs hte hok with rfl | rfl
  · exact ⟨rfl, rfl⟩
  · refine ⟨?_, ?_⟩
    · rw [lookupErr_dictSet_other _ _ _ _ (by decide)]
      rfl
    · rw [lookupErr_dictSet_other _ _ _ _ (by decide)]
      rfl

/-- Claim C8, witness for `C8_end_before_start`: start "3:30 PM", end
"2:30 PM" on 2024-06-01. -/
theorem C8_witness :
    lookupErr [("end_time", "End time must be after start time.")] "end_time" =
        some "End time must be after start time." ∧
    lookupErr [("end_time", "End time must be after start time.")] "start_time" =
        Option.none :=
  C8_end_before_start valuesC8 _ "2024-06-01" "3:30 PM" "2:30 PM"
    ⟨2024, 6, 1, 15, 30⟩ ⟨2024, 6, 1, 14, 30⟩ rfl rfl rfl rfl rfl

/-- Claim C9, corrected: a guest-email error is attached exactly when the
guest-email value is a non-empty string rejected by the actual regex
`^[^@\s]+@[^@\s]+\.[^@\s]+$` (see `pyReMatch`), which is strictly stronger
than the claim's informal description. -/
theorem C9_email_error_iff (values : PyVal) (errs : List (String × String)) (v : PyVal)
    (hv : guestEmailValue values = Except.ok v)
    (hok : validate_submission values = Except.ok errs) :
    (lookupErr errs "guest_email" = some "Must be a valid email address.") ↔
      (∃ s, v = PyVal.str s ∧ s ≠ "" ∧ pyReMatch s = false) := by
  simp only [validate_submission, hv] at hok
  by_cases ht : truthy v = true
  · rw [if_pos ht] at hok
    cases v with
    | str s =>
      by_cases hm : pyReMatch s = true
      · simp [hm] at hok
        subst hok
        constructor
        · intro h
          rw [lookupErr_timeErrorsOf_guest] at h
          exact absurd h (by simp)
        · rintro ⟨s2, hs2, hne, hf⟩
          injection hs2 with h2
          subst h2
          rw [hm] at hf
          exact absurd hf (by simp)
      · simp [hm] at hok
        subst hok
        constructor
        · intro _
          refine ⟨s, rfl, ?_, by simpa using hm⟩
          intro hs0
          subst hs0
          revert ht
          decide
        · intro _
          exact lookupErr_dictSet_self _ _ _
    | none => simp [truthy] at ht
    | dict es2 => simp at hok
  · rw [if_neg ht] at hok
    simp only [Except.ok.injEq] at hok
    subst hok
    constructor
    · intro h
      rw [lookupErr_timeErrorsOf_guest] at h
      exact absurd h (by simp)
    · rintro ⟨s, rfl, hne, hf⟩
      exfalso
      apply ht
      have hie : s.isEmpty = false := by
        cases hh : s.isEmpty
        · rfl
        · exact absurd ((String.isEmpty_iff s).mp hh) hne
      simp [truthy, hie]

/-- Claim C9, counterexample: `"@a.b"` satisfies the claim's informal pattern
description (an `@`, no whitespace, a `.` after the `@`) yet
`validate_submission` attaches the guest-email error to it. -/
theorem C9_counterexample :
    emailDescOk "@a.b" = true ∧
    validate_submission valuesC9 =
      Except.ok [("guest_email", "Must be a valid email address.")] := by
  constructor
  · decide
  · rfl

/-- Claim C9, witness for `C9_email_error_iff` at the spec's example
`"not-an-email"`. -/
theorem C9_witness :
    (lookupErr [("guest_email", "Must be a valid email address.")] "guest_email" =
        some "Must be a valid email address.") ↔
      (∃ s, PyVal.str "not-an-email" = PyVal.str s ∧ s ≠ "" ∧ pyReMatch s = false) :=
  C9_email_error_iff valuesC9w _ (PyVal.str "not-an-email") rfl rfl

/-- Claim C3: when the calendar insert fails, `handle_submission` stops after
the profile lookup and the calendar attempt — neither notification call is
made — and, the whole body being wrapped in `try ... except`, the failure
never propagates out (the embedding is a total function into traces). -/
theorem C3_calendar_failure_aborts (values : PyVal) (uid : String) (w : World)
    (hd : HandleData) (e : PyErr)
    (hex : extractHandle values = Except.ok hd)
    (hc : w.calendarResult = Except.error e) :
    handle_submission values uid w =
      [Effect.profileLookup uid,
       Effect.calendarCreate hd.sdt hd.edt
         (eventAttendees (get_user_profile w.profileResult).email)] := by
  simp only [handle_submission, hex, hc]

/-- Claim C3, witness at a concrete submission and a failing calendar. -/
theorem C3_witness :
    handle_submission valuesC2 "U42" worldC3 =
      [Effect.profileLookup "U42",
       Effect.calendarCreate ⟨2024, 6, 1, 14, 30⟩ ⟨2024, 6, 1, 15, 30⟩
         (eventAttendees (get_user_profile worldC3.profileResult).email)] :=
  C3_calendar_failure_aborts valuesC2 "U42" worldC3
    ⟨⟨2024, 6, 1, 14, 30⟩, ⟨2024, 6, 1, 15, 30⟩⟩ PyErr.valueError rfl rfl

/-- Claim C2, corrected: when the calendar insert succeeds but the
confirmation DM to the requesting user fails, the exception reaches the
outer handler of `handle_submission` and the administrator-notification step
(lines 235-250) is NOT executed — the inner `try` protects only the
administrator calls themselves. -/
theorem C2_host_dm_failure_skips_admin (values : PyVal) (uid : String) (w : World)
    (hd : HandleData) (e : PyErr)
    (hex : extractHandle values = Except.ok hd)
    (hc : w.calendarResult = Except.ok ())
    (hh : w.hostDmResult = Except.error e) :
    handle_submission values uid w =
      [Effect.profileLookup uid,
       Effect.calendarCreate hd.sdt hd.edt
         (eventAttendees (get_user_profile w.profileResult).email),
       Effect.dmHost uid] := by
  simp only [handle_submission, hex, hc, hh]
  rfl

/-- Claim C2, counterexample: calendar succeeded, host DM failed, and no
administrator effect appears in the trace. -/
theorem C2_counterexample :
    worldC2.calendarResult = Except.ok () ∧
    worldC2.hostDmResult = Except.error PyErr.typeError ∧
    (handle_submission valuesC2 "U100" worldC2).any isAdminStep = false := by
  refine ⟨rfl, rfl, ?_⟩
  rfl

/-- Claim C2, witness for `C2_host_dm_failure_skips_admin` at `worldC2`. -/
theorem C2_witness :
    handle_submission valuesC2 "U100" worldC2 =
      [Effect.profileLookup "U100",
       Effect.calendarCreate ⟨2024, 6, 1, 14, 30⟩ ⟨2024, 6, 1, 15, 30⟩
         (eventAttendees (get_user_profile worldC2.profileResult).email),
       Effect.dmHost "U100"] :=
  C2_host_dm_failure_skips_admin valuesC2 "U100" worldC2
    ⟨⟨2024, 6, 1, 14, 30⟩, ⟨2024, 6, 1, 15, 30⟩⟩ PyErr.typeError rfl rfl rfl

/-- Claim C4: a non-empty validation result makes the dispatcher answer with
the inline-errors response and attempt no orchestration effect at all. -/
theorem C4_errors_block_orchestration (values : PyVal) (uid : String) (w : World)
    (errs : List (String × String))
    (hv : validate_submission values = Except.ok errs) (hne : errs ≠ []) :
    dispatch_submission values uid w = (DispatchResponse.errorsResponse errs, []) := by
  simp only [dispatch_submission, hv]
  rw [if_neg (by simpa [List.isEmpty_iff] using hne)]

/-- Claim C4, witness: an unparseable start time blocks orchestration. -/
theorem C4_witness :
    dispatch_submission valuesC4 "U7" worldOk =
      (DispatchResponse.errorsResponse
        [("start_time", "Enter time like 2:30 PM or 14:30"),
         ("end_time", "Enter time like 3:30 PM or 15:30")], []) :=
  C4_errors_block_orchestration valuesC4 "U7" worldOk _ rfl (by decide)

/-- Claim C6: whenever the directory lookup fails — whatever the error —
`get_user_profile` returns exactly the fallback profile, and (being a total
function of the lookup outcome) never lets the failure escape. -/
theorem C6_lookup_failure_fallback (e : PyErr) :
    get_user_profile (Except.error e) = { email := Option.none, first_name := "Unknown" } := rfl

/-- Claim C10: a successful lookup whose profile has no usable first name and
no real name falls into the same `except` branch (None.split() raises), so
the full fallback is returned — the profile's email is discarded — and the
calendar attendees then contain only the administrator. -/
theorem C10_fallback_discards_email (em : String) (fn : Option String)
    (hfn : fn = Option.none ∨ fn = some "") :
    get_user_profile (Except.ok { email := some em, first_name := fn, real_name := Option.none }) =
      { email := Option.none, first_name := "Unknown" } ∧
    eventAttendees (get_user_profile (Except.ok
        { email := some em, first_name := fn, real_name := Option.none })).email =
      [alannaEmail] := by
  rcases hfn with rfl | rfl <;> exact ⟨rfl, rfl⟩

/-- Claim C10, witness at a concrete profile carrying an email. -/
theorem C10_witness :
    get_user_profile (Except.ok
        { email := some "tahseen@anterior.com", first_name := Option.none,
          real_name := Option.none }) =
      { email := Option.none, first_name := "Unknown" } ∧
    eventAttendees (get_user_profile (Except.ok
        { email := some "tahseen@anterior.com", first_name := Option.none,
          real_name := Option.none })).email =
      [alannaEmail] :=
  C10_fallback_discards_email "tahseen@anterior.com" Option.none (Or.inl rfl)

/-- Claim C5, witness for `C5_time_formats` at 2024-06-01. -/
theorem C5_witness :
    parse_flexible_time (isoString 2024 6 1) "2:30pm" = some ⟨2024, 6, 1, 14, 30⟩ ∧
    parse_flexible_time (isoString 2024 6 1) "2:30 PM" = some ⟨2024, 6, 1, 14, 30⟩ ∧
    parse_flexible_time (isoString 2024 6 1) "2.30pm" = some ⟨2024, 6, 1, 14, 30⟩ ∧
    parse_flexible_time (isoString 2024 6 1) "14:30" = some ⟨2024, 6, 1, 14, 30⟩ :=
  C5_time_formats 2024 6 1 (by norm_num) (by norm_num) (by norm_num) (by norm_num)
    (by norm_num) (by decide)
